import Mathlib

/-
  Shallow embedding of the authentication/session slice of the
  patient-task-logger frontend:

  - src/context/AuthContext.js : the auth reducer, the AuthProvider
    operations (restore-on-start, login, register, logout, clearError)
    and the role helpers (hasRole);
  - src/services/api.js : the axios request/response interceptors and
    the handleApiError normalizer.

  JavaScript values are modelled at the granularity the code observes:
  `localStorage` is a pair of optional string slots, string truthiness
  is "non-empty", and the result of JSON.parse on the stored user string
  is modelled abstractly by its outcome (a user object, null, some other
  JSON value with a known truthiness, or a parse failure for non-JSON
  text).
-/

namespace PatientTaskLogger

/-- A user record, with the fields named by the data model
(id, firstName, lastName, role, hospitalId). -/
structure User where
  id : Nat
  firstName : String
  lastName : String
  role : String
  hospitalId : String
deriving DecidableEq, Repr

/-- The JavaScript value sitting in the session's `user` slot: `null`,
an actual user object, or some other value (anything JSON.parse may
return that is not a user object), tagged with its JS truthiness. -/
inductive UserSlot
  | null
  | user (u : User)
  | other (truthy : Bool)
deriving DecidableEq, Repr

/-- JS truthiness of the value in the user slot: `null` is falsy, an
object is truthy, other values carry their own truthiness. -/
def UserSlot.truthy : UserSlot → Bool
  | .null => false
  | .user _ => true
  | .other t => t

/-- Property access `x.role` on the user slot: `some u.role` on a user
object, undefined (`none`) otherwise. -/
def UserSlot.roleOf : UserSlot → Option String
  | .user u => some u.role
  | _ => none

/-- A string fed to JSON.parse, modelled by its parse outcome: either
valid JSON text denoting the value `v` (such text is never empty, hence
always truthy), or non-JSON text `s` on which JSON.parse throws. -/
inductive JsonText
  | jsonOf (v : UserSlot)
  | malformed (s : String)
deriving DecidableEq, Repr

/-- JS truthiness of a stored string: the empty string is falsy, any
other string (valid JSON text in particular) is truthy. -/
def JsonText.truthy : JsonText → Bool
  | .jsonOf _ => true
  | .malformed s => s ≠ ""

/-- Model of JSON.parse on a stored string: valid JSON text yields its
value, non-JSON text throws (`none`). -/
def jsParse : JsonText → Option UserSlot
  | .jsonOf v => some v
  | .malformed _ => none

/-- Model of `JSON.stringify(user)` for an actual user object: valid
JSON text that parses back to that object. -/
def stringifyUser (u : User) : JsonText :=
  .jsonOf (.user u)

/-- JS truthiness of `localStorage.getItem` results: `null` (absent key)
and the empty string are falsy. -/
def optTruthy : Option String → Bool
  | none => false
  | some s => s ≠ ""

/-- The JS expression `v || fallback` for a string-valued `v` that may
be absent: the fallback is taken when `v` is absent (or null) or the
empty string. -/
def jsOr (v : Option String) (fallback : String) : String :=
  match v with
  | some s => if s = "" then fallback else s
  | none => fallback

/-- The persisted key-value storage: the `authToken` and `user` keys of
localStorage ( `none` = key absent). -/
structure Storage where
  authToken : Option String
  user : Option JsonText
deriving DecidableEq, Repr

/-- Storage with both credential keys removed. -/
def emptyStorage : Storage :=
  { authToken := none, user := none }

/-- The session state held by the auth reducer (the `state` object of
AuthContext.js): user, token, isAuthenticated, isLoading, error. -/
structure Session where
  user : UserSlot
  token : Option String
  isAuthenticated : Bool
  isLoading : Bool
  error : Option String
deriving DecidableEq, Repr

/-- The `initialState` object of AuthContext.js. -/
def initialState : Session :=
  { user := .null
    token := none
    isAuthenticated := false
    isLoading := true
    error := none }

/-- The actions dispatched to the auth reducer, with their payloads.
LOGIN_SUCCESS carries the server response (a user object and a token
string, per the auth API contract); LOAD_USER_FROM_STORAGE carries
whatever was read back from storage. -/
inductive Action
  | loginStart
  | loginSuccess (user : User) (token : String)
  | loginFailure (msg : String)
  | logout
  | loadUserFromStorage (user : UserSlot) (token : Option String)
  | clearError
deriving DecidableEq, Repr

/-- The authReducer of AuthContext.js, case by case. In the
LOAD_USER_FROM_STORAGE case isAuthenticated is `action.payload.token ?
true : false`, the truthiness of the token payload alone. -/
def authReducer (state : Session) : Action → Session
  | .loginStart =>
      { state with isLoading := true, error := none }
  | .loginSuccess u tok =>
      { state with
          user := .user u
          token := some tok
          isAuthenticated := true
          isLoading := false
          error := none }
  | .loginFailure msg =>
      { state with
          user := .null
          token := none
          isAuthenticated := false
          isLoading := false
          error := some msg }
  | .logout =>
      { state with
          user := .null
          token := none
          isAuthenticated := false
          isLoading := false
          error := none }
  | .loadUserFromStorage u tok =>
      { state with
          user := u
          token := tok
          isAuthenticated := optTruthy tok
          isLoading := false }
  | .clearError =>
      { state with error := none }

/-- The combined client state the AuthProvider operations act on: the
in-memory session plus the persisted storage. -/
structure GState where
  session : Session
  storage : Storage
deriving DecidableEq, Repr

/-- The restore-on-start effect of AuthProvider (the useEffect that
reads localStorage once at mount): if both keys are present and truthy,
JSON.parse the user string and dispatch LOAD_USER_FROM_STORAGE with the
parsed user and the token; if the parse throws, remove both keys and
dispatch with nulls; if either key is absent or falsy, dispatch with
nulls without touching storage. -/
def restoreG (g : GState) : GState :=
  match g.storage.authToken, g.storage.user with
  | some tok, some userText =>
      if tok ≠ "" ∧ userText.truthy then
        match jsParse userText with
        | some parsedUser =>
            { g with session :=
                authReducer g.session (.loadUserFromStorage parsedUser (some tok)) }
        | none =>
            { session := authReducer g.session (.loadUserFromStorage .null none)
              storage := emptyStorage }
      else
        { g with session := authReducer g.session (.loadUserFromStorage .null none) }
  | _, _ =>
      { g with session := authReducer g.session (.loadUserFromStorage .null none) }

/-- The dispatch of LOGIN_START at the top of login / register. -/
def loginStartStep (g : GState) : GState :=
  { g with session := authReducer g.session .loginStart }

/-- The success path of login / register: write both storage keys
(`authToken` and the stringified user), then dispatch LOGIN_SUCCESS with
the server response. -/
def loginSuccessStep (g : GState) (u : User) (tok : String) : GState :=
  { session := authReducer g.session (.loginSuccess u tok)
    storage := { authToken := some tok, user := some (stringifyUser u) } }

/-- The catch path of login: compute `error.response?.data?.error ||
"Login failed"` and dispatch LOGIN_FAILURE with it; storage is not
touched. -/
def loginFailureStep (g : GState) (serverMsg : Option String) : GState :=
  { g with session :=
      authReducer g.session (.loginFailure (jsOr serverMsg "Login failed")) }

/-- The catch path of register: same as login's but with the
"Registration failed" fallback message. -/
def registerFailureStep (g : GState) (serverMsg : Option String) : GState :=
  { g with session :=
      authReducer g.session (.loginFailure (jsOr serverMsg "Registration failed")) }

/-- The logout operation: authAPI.logout removes both storage keys, then
LOGOUT is dispatched. -/
def logoutStep (g : GState) : GState :=
  { session := authReducer g.session .logout
    storage := emptyStorage }

/-- The clearError operation: dispatch CLEAR_ERROR. -/
def clearErrorStep (g : GState) : GState :=
  { g with session := authReducer g.session .clearError }

/-- The error-response payload an axios error may carry
(`error.response`): the HTTP status and the `data.error` field of the
response body ( `none` when the body has no truthy string there is
modelled separately by jsOr; here `none` simply means the field is
absent or null). -/
structure ErrResponse where
  status : Nat
  dataError : Option String
deriving DecidableEq, Repr

/-- An axios error object as the interceptors and handleApiError observe
it: an optional response, whether `error.request` is set (a request went
out but no response came back), and `error.message`. -/
structure AxiosError where
  response : Option ErrResponse
  hasRequest : Bool
  message : String
deriving DecidableEq, Repr

/-- The expression `error.response?.data?.error` of the login / register
catch blocks. -/
def AxiosError.serverMsg (e : AxiosError) : Option String :=
  e.response.bind (fun r => r.dataError)

/-- The outcome of an authAPI.login / authAPI.register call as the
provider sees it: the resolved `{user, token}` payload or the axios
error the promise was rejected with. -/
inductive ApiOutcome
  | ok (user : User) (token : String)
  | err (e : AxiosError)
deriving DecidableEq, Repr

/-- The login operation of AuthProvider, as a function of the API
outcome: dispatch LOGIN_START, then on success write storage, dispatch
LOGIN_SUCCESS and return the response; on failure dispatch LOGIN_FAILURE
with the normalized message and re-throw the original error. -/
def loginG (g : GState) : ApiOutcome → GState × Except AxiosError (User × String)
  | .ok u tok => (loginSuccessStep (loginStartStep g) u tok, .ok (u, tok))
  | .err e => (loginFailureStep (loginStartStep g) e.serverMsg, .error e)

/-- The register operation of AuthProvider: identical to login except
for the fallback error message. -/
def registerG (g : GState) : ApiOutcome → GState × Except AxiosError (User × String)
  | .ok u tok => (loginSuccessStep (loginStartStep g) u tok, .ok (u, tok))
  | .err e => (registerFailureStep (loginStartStep g) e.serverMsg, .error e)

/-- An outbound request configuration as the request interceptor sees
it: the value of the Authorization header ( `none` = header absent). -/
structure RequestConfig where
  url : String
  authorization : Option String
deriving DecidableEq, Repr

/-- The request interceptor of api.js: read `authToken` from storage;
if truthy, set the Authorization header to the Bearer credential;
otherwise return the config unchanged. -/
def requestInterceptor (storage : Storage) (config : RequestConfig) : RequestConfig :=
  match storage.authToken with
  | some tok =>
      if tok ≠ "" then
        { config with authorization := some ("Bearer " ++ tok) }
      else config
  | none => config

/-- The error branch of the response interceptor of api.js: on a 401
response status, remove both storage keys and set `window.location.href`
to "/login"; in every case reject with the original error. The result
triple is the storage after the interceptor, the location href after the
interceptor, and the rejection handed to the in-flight caller. -/
def responseErrorInterceptor (e : AxiosError) (storage : Storage) (href : String) :
    Storage × String × Except AxiosError (User × String) :=
  if e.response.any (fun r => r.status == 401) then
    (emptyStorage, "/login", .error e)
  else
    (storage, href, .error e)

/-- The normalized error shape `{message, status, details}` produced by
handleApiError (details is the response body, present only in the
server-error branch; of the body we model its `error` field). -/
structure NormalizedError where
  message : String
  status : Int
  details : Option (Option String)
deriving DecidableEq, Repr

/-- The handleApiError utility of api.js: a server-supplied error status
is reported with the body's error message (or a generic one), a
transport failure (request sent, no response) is reported as a network
error with status 0, anything else with status -1. -/
def handleApiError (e : AxiosError) : NormalizedError :=
  match e.response with
  | some r =>
      { message := jsOr r.dataError "An error occurred"
        status := (r.status : Int)
        details := some r.dataError }
  | none =>
      if e.hasRequest then
        { message := "Network error. Please check your connection."
          status := 0
          details := none }
      else
        { message := jsOr (some e.message) "An unexpected error occurred"
          status := -1
          details := none }

/-- The hasRole helper's argument: a single role string or an array of
role strings. -/
inductive RolesArg
  | one (r : String)
  | many (rs : List String)
deriving DecidableEq, Repr

/-- The hasRole helper of AuthContext.js: false when `state.user` is
falsy; otherwise membership of `state.user.role` in the array (or
equality with the single string), where property access on a non-user
value yields undefined, which equals no string. -/
def hasRole (slot : UserSlot) : RolesArg → Bool
  | .many rs =>
      if slot.truthy then
        match slot.roleOf with
        | some r => rs.contains r
        | none => false
      else false
  | .one r =>
      if slot.truthy then slot.roleOf == some r else false

/-- The initial client state: the reducer's initialState and, at first
process start, empty persisted storage. -/
def initG : GState :=
  { session := initialState, storage := emptyStorage }

/-- The client states reachable from the initial state through the
defined Session Store transitions: restore, the micro-steps of login and
register (LOGIN_START, then the success or failure path with an
arbitrary server payload), logout and clearError. -/
inductive Reachable : GState → Prop
  | init : Reachable initG
  | restore {g} : Reachable g → Reachable (restoreG g)
  | loginStart {g} : Reachable g → Reachable (loginStartStep g)
  | loginSuccess {g} (u : User) (tok : String) :
      Reachable g → Reachable (loginSuccessStep g u tok)
  | loginFailure {g} (m : Option String) :
      Reachable g → Reachable (loginFailureStep g m)
  | registerFailure {g} (m : Option String) :
      Reachable g → Reachable (registerFailureStep g m)
  | logout {g} : Reachable g → Reachable (logoutStep g)
  | clearError {g} : Reachable g → Reachable (clearErrorStep g)

/-- The authentication invariant of the claim: isAuthenticated holds iff
both the user and the token are present (non-null). -/
def authInv (s : Session) : Prop :=
  s.isAuthenticated = true ↔ (s.user ≠ .null ∧ s.token ≠ none)

/-- Auxiliary storage invariant: the `user` key, when present, holds the
stringification of an actual user object (that is what every write path
puts there). -/
def storageInv (st : Storage) : Prop :=
  ∀ t, st.user = some t → ∃ u, t = stringifyUser u

/-- A concrete user record used to instantiate the theorems below. -/
def adminUser : User :=
  { id := 1, firstName := "Ada", lastName := "Lovelace",
    role := "admin", hospitalId := "h1" }

/-- A concrete axios error carrying a 401 response. -/
def unauthorizedErr : AxiosError :=
  { response := some { status := 401, dataError := some "Unauthorized" },
    hasRequest := true, message := "Request failed with status code 401" }

/-- A concrete axios error for a transport failure: a request went out
but no response came back. -/
def networkErr : AxiosError :=
  { response := none, hasRequest := true,
    message := "timeout of 10000ms exceeded" }

/-- A concrete axios error carrying a 400 response whose body has an
error message. -/
def badCredErr : AxiosError :=
  { response := some { status := 400, dataError := some "Invalid credentials" },
    hasRequest := true, message := "Request failed with status code 400" }

/-- C9: clearError clears the lastError field, leaves the user, token,
isAuthenticated and isLoading fields (and the persisted storage)
unchanged, and is idempotent: applying it twice equals applying it
once. -/
theorem clearError_clears_only_error_and_idempotent (g : GState) :
    (clearErrorStep g).session.error = none ∧
    (clearErrorStep g).session.user = g.session.user ∧
    (clearErrorStep g).session.token = g.session.token ∧
    (clearErrorStep g).session.isAuthenticated = g.session.isAuthenticated ∧
    (clearErrorStep g).session.isLoading = g.session.isLoading ∧
    (clearErrorStep g).storage = g.storage ∧
    clearErrorStep (clearErrorStep g) = clearErrorStep g := by
  simp [clearErrorStep, authReducer]

/-- Witness for C9: the characterization applied at the initial client
state. -/
theorem clearError_clears_only_error_witness :
    clearErrorStep (clearErrorStep initG) = clearErrorStep initG :=
  (clearError_clears_only_error_and_idempotent initG).2.2.2.2.2.2

/-- C10: hasRole applied to the singleton array of "admin" returns false
when the session has no user, and when a user is present it returns true
exactly when the user's role is "admin". -/
theorem hasRole_admin_characterization :
    hasRole .null (.many ["admin"]) = false ∧
    ∀ u : User, (hasRole (.user u) (.many ["admin"]) = true ↔ u.role = "admin") := by
  refine ⟨rfl, fun u => ?_⟩
  simp [hasRole, UserSlot.truthy, UserSlot.roleOf]

/-- Witness for C10: the characterization applied at a concrete admin
user. -/
theorem hasRole_admin_witness :
    hasRole (.user adminUser) (.many ["admin"]) = true :=
  (hasRole_admin_characterization.2 adminUser).mpr rfl

/-- C8: the request interceptor attaches the Bearer credential header
exactly when a (truthy) token is held in persisted storage: with a
non-empty stored token the outgoing config carries Authorization
"Bearer " followed by the token, and with no stored token the config is
returned unchanged, so a request built without an Authorization header
goes out without one. -/
theorem request_interceptor_bearer (st : Storage) (c : RequestConfig) :
    (∀ tok, st.authToken = some tok → tok ≠ "" →
      (requestInterceptor st c).authorization = some ("Bearer " ++ tok)) ∧
    (st.authToken = none → requestInterceptor st c = c) ∧
    (st.authToken = none → c.authorization = none →
      (requestInterceptor st c).authorization = none) := by
  refine ⟨fun tok h hne => ?_, fun h => ?_, fun h hc => ?_⟩
  · simp [requestInterceptor, h, hne]
  · simp [requestInterceptor, h]
  · simp [requestInterceptor, h, hc]

/-- Witness for C8: a stored token "abc" produces the header
"Bearer abc" on a header-less config. -/
theorem request_interceptor_bearer_witness :
    (requestInterceptor { authToken := some "abc", user := none }
        { url := "/patients", authorization := none }).authorization =
      some ("Bearer " ++ "abc") :=
  (request_interceptor_bearer _ _).1 "abc" rfl (by decide)

/-- C4 counterexample: on a concrete transport failure the normalized
message is "Network error. Please check your connection.", not the exact
text "network error" stated by the claim. -/
theorem handleApiError_network_message_cex :
    (handleApiError networkErr).message ≠ "network error" := by
  decide

/-- C4 as amended: for every transport-level failure (no response
received, request present) the normalized error is exactly message
"Network error. Please check your connection." with status 0 (and no
details). -/
theorem handleApiError_network_normalization (e : AxiosError)
    (hresp : e.response = none) (hreq : e.hasRequest = true) :
    handleApiError e =
      { message := "Network error. Please check your connection."
        status := 0
        details := none } := by
  simp [handleApiError, hresp, hreq]

/-- Witness for C4: the normalization applied at the concrete transport
failure. -/
theorem handleApiError_network_normalization_witness :
    handleApiError networkErr =
      { message := "Network error. Please check your connection."
        status := 0
        details := none } :=
  handleApiError_network_normalization networkErr rfl rfl

/-- C2: on any response with status 401, whatever the endpoint, the
response interceptor removes both persisted credential keys, sets the
location to the login view and rejects with the original error; the
page load that follows the navigation restores from the now-empty
storage, leaving the Session Store Anonymous (no user, no token, not
authenticated, not loading). -/
theorem response401_clears_redirects_rejects (e : AxiosError)
    (r : ErrResponse) (st : Storage) (href : String) (s : Session)
    (hr : e.response = some r) (h401 : r.status = 401) :
    responseErrorInterceptor e st href = (emptyStorage, "/login", Except.error e) ∧
    (restoreG { session := s, storage := emptyStorage }).session.user = .null ∧
    (restoreG { session := s, storage := emptyStorage }).session.token = none ∧
    (restoreG { session := s, storage := emptyStorage }).session.isAuthenticated = false ∧
    (restoreG { session := s, storage := emptyStorage }).session.isLoading = false := by
  refine ⟨?_, ?_, ?_, ?_, ?_⟩ <;>
    simp [responseErrorInterceptor, hr, h401, restoreG, emptyStorage,
      authReducer, optTruthy, Option.any]

/-- Witness for C2: the interceptor behavior at a concrete 401 error,
populated storage and a concrete prior location. -/
theorem response401_clears_redirects_rejects_witness :
    responseErrorInterceptor unauthorizedErr
        { authToken := some "abc", user := some (stringifyUser adminUser) }
        "/patients" =
      (emptyStorage, "/login", Except.error unauthorizedErr) :=
  (response401_clears_redirects_rejects unauthorizedErr
    { status := 401, dataError := some "Unauthorized" } _ _ initialState
    rfl rfl).1

/-- C5: every failed login or register call leaves the session Anonymous
(user and token cleared, isAuthenticated false, pending flag off), sets
lastError to the server-supplied message from the response body when a
non-empty one is present (the generic fallback "Login failed" or
"Registration failed" is used when it is absent or empty), and re-throws
the original error to the caller. -/
theorem auth_failure_sets_error_and_rethrows (g : GState) (e : AxiosError) :
    ((loginG g (.err e)).1.session.user = .null ∧
     (loginG g (.err e)).1.session.token = none ∧
     (loginG g (.err e)).1.session.isAuthenticated = false ∧
     (loginG g (.err e)).1.session.isLoading = false ∧
     (loginG g (.err e)).2 = Except.error e ∧
     (∀ m, e.serverMsg = some m → m ≠ "" →
       (loginG g (.err e)).1.session.error = some m) ∧
     (e.serverMsg = none →
       (loginG g (.err e)).1.session.error = some "Login failed") ∧
     (e.serverMsg = some "" →
       (loginG g (.err e)).1.session.error = some "Login failed")) ∧
    ((registerG g (.err e)).1.session.user = .null ∧
     (registerG g (.err e)).1.session.token = none ∧
     (registerG g (.err e)).1.session.isAuthenticated = false ∧
     (registerG g (.err e)).1.session.isLoading = false ∧
     (registerG g (.err e)).2 = Except.error e ∧
     (∀ m, e.serverMsg = some m → m ≠ "" →
       (registerG g (.err e)).1.session.error = some m) ∧
     (e.serverMsg = none →
       (registerG g (.err e)).1.session.error = some "Registration failed") ∧
     (e.serverMsg = some "" →
       (registerG g (.err e)).1.session.error = some "Registration failed")) := by
  refine ⟨⟨?_, ?_, ?_, ?_, ?_, fun m hm hne => ?_, fun hm => ?_, fun hm => ?_⟩,
         ⟨?_, ?_, ?_, ?_, ?_, fun m hm hne => ?_, fun hm => ?_, fun hm => ?_⟩⟩ <;>
    simp_all [loginG, registerG, loginFailureStep, registerFailureStep,
      loginStartStep, authReducer, jsOr]

/-- Witness for C5: a failed login with a concrete server error message
ends with that message as lastError. -/
theorem auth_failure_sets_error_witness :
    (loginG initG (.err badCredErr)).1.session.error = some "Invalid credentials" :=
  (auth_failure_sets_error_and_rethrows initG badCredErr).1.2.2.2.2.2.1
    "Invalid credentials" rfl (by decide)

/-- The storage holding a token and a stringified user: exactly the
pair of writes a successful login or register performs. -/
def credStorage (tok : String) (u : User) : Storage :=
  { authToken := some tok, user := some (stringifyUser u) }

/-- C6: the storage round trip. Writing any valid pair (a non-empty
token string and the stringified user, exactly what a successful login
writes) and then restoring parses the user back to the identical user
object and yields an Authenticated session carrying it and the token,
with storage untouched. -/
theorem storage_roundtrip_restores_user (s : Session) (u : User)
    (tok : String) (htok : tok ≠ "") :
    jsParse (stringifyUser u) = some (.user u) ∧
    (restoreG { session := s, storage := credStorage tok u }).session.user = .user u ∧
    (restoreG { session := s, storage := credStorage tok u }).session.token = some tok ∧
    (restoreG { session := s, storage := credStorage tok u }).session.isAuthenticated = true ∧
    (restoreG { session := s, storage := credStorage tok u }).session.isLoading = false ∧
    (restoreG { session := s, storage := credStorage tok u }).storage = credStorage tok u := by
  refine ⟨rfl, ?_, ?_, ?_, ?_, ?_⟩ <;>
    simp [restoreG, credStorage, stringifyUser, jsParse, JsonText.truthy,
      authReducer, optTruthy, htok]

/-- Witness for C6: the round trip at a concrete user and token. -/
theorem storage_roundtrip_restores_user_witness :
    (restoreG { session := initialState, storage := credStorage "abc" adminUser }).session.user =
      .user adminUser :=
  (storage_roundtrip_restores_user initialState adminUser "abc" (by decide)).2.1

/-- C7: a failed login or register leaves both persisted keys exactly as
they were; in particular the credential written by an earlier successful
login survives a later failed login, the in-memory session is then
Anonymous, and a subsequent restore on that surviving storage is
Authenticated again with the earlier user. -/
theorem failed_auth_preserves_storage (g : GState) (e e2 : AxiosError)
    (u : User) (tok : String) (htok : tok ≠ "") :
    (loginG g (.err e)).1.storage = g.storage ∧
    (registerG g (.err e)).1.storage = g.storage ∧
    (loginG (loginG g (.ok u tok)).1 (.err e2)).1.storage =
      (loginG g (.ok u tok)).1.storage ∧
    (loginG (loginG g (.ok u tok)).1 (.err e2)).1.session.user = .null ∧
    (loginG (loginG g (.ok u tok)).1 (.err e2)).1.session.isAuthenticated = false ∧
    (restoreG (loginG (loginG g (.ok u tok)).1 (.err e2)).1).session.isAuthenticated = true ∧
    (restoreG (loginG (loginG g (.ok u tok)).1 (.err e2)).1).session.user = .user u := by
  refine ⟨?_, ?_, ?_, ?_, ?_, ?_, ?_⟩ <;>
    simp [loginG, registerG, loginFailureStep, registerFailureStep,
      loginStartStep, loginSuccessStep, restoreG, stringifyUser, jsParse,
      JsonText.truthy, authReducer, optTruthy, htok]

/-- Witness for C7: the frame property at concrete inputs, showing the
earlier credential still restores to an Authenticated session after the
failed attempt. -/
theorem failed_auth_preserves_storage_witness :
    (restoreG (loginG (loginG initG (.ok adminUser "abc")).1
        (.err badCredErr)).1).session.isAuthenticated = true :=
  (failed_auth_preserves_storage initG badCredErr badCredErr adminUser "abc"
    (by decide)).2.2.2.2.2.1

/-- C3 counterexample: with the token key missing and a perfectly valid
user key present, restore goes to the branch that dispatches nulls
without touching storage, so the user key is still present afterwards;
the claim instead states that a missing field clears persisted storage
(removes both keys). -/
theorem restore_missing_token_leaves_user_key :
    (restoreG { session := initialState
                storage := { authToken := none, user := some (stringifyUser adminUser) } }).storage.user ≠
      none := by
  decide

/-- C3 as amended: restore reads the stored credential once at process
start; when both keys are present and truthy and the stored user is the
stringification of a user object, the session becomes Authenticated with
that user and storage is untouched; when both keys are present and
truthy but the stored user is malformed (non-JSON), both keys are
removed and the session becomes Anonymous; when either key is absent the
session becomes Anonymous and storage is left unchanged. -/
theorem restore_case_analysis (s : Session) (st : Storage) :
    (∀ tok u, st.authToken = some tok → tok ≠ "" →
      st.user = some (stringifyUser u) →
      (restoreG { session := s, storage := st }).session.user = .user u ∧
      (restoreG { session := s, storage := st }).session.token = some tok ∧
      (restoreG { session := s, storage := st }).session.isAuthenticated = true ∧
      (restoreG { session := s, storage := st }).storage = st) ∧
    (∀ tok str, st.authToken = some tok → tok ≠ "" →
      st.user = some (.malformed str) → str ≠ "" →
      (restoreG { session := s, storage := st }).storage = emptyStorage ∧
      (restoreG { session := s, storage := st }).session.user = .null ∧
      (restoreG { session := s, storage := st }).session.token = none ∧
      (restoreG { session := s, storage := st }).session.isAuthenticated = false ∧
      (restoreG { session := s, storage := st }).session.isLoading = false) ∧
    ((st.authToken = none ∨ st.user = none) →
      (restoreG { session := s, storage := st }).session.user = .null ∧
      (restoreG { session := s, storage := st }).session.token = none ∧
      (restoreG { session := s, storage := st }).session.isAuthenticated = false ∧
      (restoreG { session := s, storage := st }).session.isLoading = false ∧
      (restoreG { session := s, storage := st }).storage = st) := by
  refine ⟨fun tok u htok hne huser => ?_, fun tok str htok hne huser hstr => ?_,
    fun h => ?_⟩
  · simp [restoreG, htok, huser, stringifyUser, jsParse, JsonText.truthy,
      authReducer, optTruthy, hne]
  · simp [restoreG, htok, huser, jsParse, JsonText.truthy, authReducer,
      optTruthy, hne, hstr]
  · rcases h with h | h <;> rcases hu : st.user with _ | t <;>
      rcases ht : st.authToken with _ | tok <;>
      simp_all [restoreG, authReducer, optTruthy]

/-- Witness for C3: the valid branch of the amended characterization at
a concrete stored credential. -/
theorem restore_case_analysis_witness :
    (restoreG { session := initialState, storage := credStorage "tok1" adminUser }).session.isAuthenticated =
      true :=
  ((restore_case_analysis initialState (credStorage "tok1" adminUser)).1
    "tok1" adminUser rfl (by decide) rfl).2.2.1

/-- Helper for C1: every client state reachable through the defined
transitions satisfies both the authentication invariant and the storage
invariant (the stored user key, when present, is the stringification of
a user object). -/
theorem reachable_inv (g : GState) (h : Reachable g) :
    authInv g.session ∧ storageInv g.storage := by
  induction h with
  | init =>
      refine ⟨by simp [authInv, initG, initialState], fun t ht => ?_⟩
      simp [initG, emptyStorage] at ht
  | @restore g hg ih =>
      obtain ⟨hA, hS⟩ := ih
      rcases ht : g.storage.authToken with _ | tok
      · refine ⟨by simp [restoreG, ht, authInv, authReducer, optTruthy],
          fun t htt => ?_⟩
        refine hS t ?_
        simpa [restoreG, ht] using htt
      · rcases hu : g.storage.user with _ | userText
        · refine ⟨by simp [restoreG, ht, hu, authInv, authReducer, optTruthy],
            fun t htt => ?_⟩
          refine hS t ?_
          simp [restoreG, ht, hu] at htt
        · obtain ⟨u, rfl⟩ := hS userText hu
          by_cases he : tok = ""
          · refine ⟨by simp [restoreG, ht, hu, he, stringifyUser,
              JsonText.truthy, authInv, authReducer, optTruthy],
              fun t htt => ?_⟩
            refine hS t ?_
            simpa [restoreG, ht, hu, he, stringifyUser, JsonText.truthy]
              using htt
          · refine ⟨by simp [restoreG, ht, hu, he, stringifyUser, jsParse,
              JsonText.truthy, authInv, authReducer, optTruthy],
              fun t htt => ?_⟩
            refine hS t ?_
            simpa [restoreG, ht, hu, he, stringifyUser, jsParse,
              JsonText.truthy] using htt
  | @loginStart g hg ih =>
      obtain ⟨hA, hS⟩ := ih
      refine ⟨?_, fun t htt => hS t (by simpa [loginStartStep] using htt)⟩
      simpa [loginStartStep, authReducer, authInv] using hA
  | @loginSuccess g u tok hg ih =>
      refine ⟨by simp [loginSuccessStep, authReducer, authInv],
        fun t htt => ⟨u, ?_⟩⟩
      simp [loginSuccessStep] at htt
      exact htt.symm
  | @loginFailure g m hg ih =>
      refine ⟨by simp [loginFailureStep, authReducer, authInv],
        fun t htt => ih.2 t (by simpa [loginFailureStep] using htt)⟩
  | @registerFailure g m hg ih =>
      refine ⟨by simp [registerFailureStep, authReducer, authInv],
        fun t htt => ih.2 t (by simpa [registerFailureStep] using htt)⟩
  | @logout g hg ih =>
      refine ⟨by simp [logoutStep, authReducer, authInv],
        fun t htt => ?_⟩
      simp [logoutStep, emptyStorage] at htt
  | @clearError g hg ih =>
      obtain ⟨hA, hS⟩ := ih
      refine ⟨?_, fun t htt => hS t (by simpa [clearErrorStep] using htt)⟩
      simpa [clearErrorStep, authReducer, authInv] using hA

/-- C1: in every client state reachable from the initial state through
the defined transitions (restore, the login and register micro-steps,
logout, clearError), isAuthenticated is true if and only if both the
user and the token are present (non-null). -/
theorem auth_flag_iff_user_and_token (g : GState) (h : Reachable g) :
    g.session.isAuthenticated = true ↔
      (g.session.user ≠ .null ∧ g.session.token ≠ none) :=
  (reachable_inv g h).1

/-- Witness for C1: the invariant at the concrete reachable state
produced by a successful login from the initial state. -/
theorem auth_flag_iff_user_and_token_witness :
    Reachable (loginSuccessStep (loginStartStep initG) adminUser "abc") ∧
    ((loginSuccessStep (loginStartStep initG) adminUser "abc").session.isAuthenticated = true ↔
      ((loginSuccessStep (loginStartStep initG) adminUser "abc").session.user ≠ .null ∧
       (loginSuccessStep (loginStartStep initG) adminUser "abc").session.token ≠ none)) :=
  ⟨Reachable.loginSuccess adminUser "abc" (Reachable.loginStart Reachable.init),
   auth_flag_iff_user_and_token _
     (Reachable.loginSuccess adminUser "abc" (Reachable.loginStart Reachable.init))⟩

end PatientTaskLogger
